import Mathlib

/-!
Verification of the job/session lifecycle core of a local quantum-runtime
server (job manager with FIFO queue and single worker, session manager with
admission control), shallowly embedded from
`src/qiskit_runtime_server/managers/job_manager.py`,
`src/qiskit_runtime_server/managers/session_manager.py`,
`src/qiskit_runtime_server/models.py` and
`src/qiskit_runtime_server/providers/backend_metadata.py`.

Opaque payloads (params, options, result data) are modelled as `Nat` tokens;
timestamps are modelled as abstract `Nat` instants; the external backend
catalogue is an opaque `String → Bool` predicate.
-/

namespace RuntimeServer

/-- Job status (`models.py`, `JobStatus`). -/
inductive JobStatus where
  | QUEUED
  | RUNNING
  | COMPLETED
  | FAILED
  | CANCELLED
deriving DecidableEq, Repr

/-- The terminal statuses: COMPLETED, FAILED, CANCELLED. -/
def JobStatus.isTerminal : JobStatus → Bool
  | .COMPLETED => true
  | .FAILED => true
  | .CANCELLED => true
  | _ => false

/-- Internal job record (`models.py`, `JobInfo`). -/
structure JobInfo where
  job_id : String
  program_id : String
  backend_name : String
  params : Nat
  options : Nat
  session_id : Option String := none
  status : JobStatus
  created_at : Nat
  started_at : Option Nat := none
  completed_at : Option Nat := none
  result_data : Option Nat := none
  error_message : Option String := none
deriving DecidableEq, Repr

/-- Session execution mode (`models.py`, `SessionMode`). -/
inductive SessionMode where
  | DEDICATED
  | BATCH
deriving DecidableEq, Repr

/-- Internal session record (`models.py`, `SessionInfo`); `instance` is a Lean
keyword, so the field is named `instance_crn`. -/
structure SessionInfo where
  session_id : String
  mode : SessionMode
  backend_name : String
  instance_crn : Option String := none
  max_ttl : Nat
  created_at : Nat
  accepting_jobs : Bool := true
  active : Bool := true
  job_ids : List String := []
deriving DecidableEq, Repr

/-! ### Python `dict` operations on association lists

Python dicts keep insertion order; assignment to an existing key updates in
place, assignment to a fresh key appends. -/

/-- `d.get(k)` on a Python dict. -/
def dictGet (k : String) : List (String × α) → Option α
  | [] => none
  | (k₁, v) :: rest => if k₁ = k then some v else dictGet k rest

/-- `d[k] = v` on a Python dict. -/
def dictInsert (k : String) (v : α) : List (String × α) → List (String × α)
  | [] => [(k, v)]
  | (k₁, v₁) :: rest =>
      if k₁ = k then (k, v) :: rest else (k₁, v₁) :: dictInsert k v rest

/-- `del d[k]` on a Python dict. -/
def dictDelete (k : String) : List (String × α) → List (String × α)
  | [] => []
  | (k₁, v₁) :: rest =>
      if k₁ = k then rest else (k₁, v₁) :: dictDelete k rest

/-- Keys of a Python dict are pairwise distinct. -/
def keysNodup (d : List (String × α)) : Prop := (d.map Prod.fst).Nodup



/-! ### Session Store (`session_manager.py`, class `SessionManager`) -/

/-- Session Store state: the `sessions` dict of `SessionManager.__init__`. -/
structure SessionManager where
  sessions : List (String × SessionInfo)
deriving DecidableEq, Repr

/-- `SessionManager.create_session`: stores a fresh session record with
`accepting_jobs=True`, `active=True`, empty `job_ids`.  The generated
`session-<uuid>` id and the `datetime.now` instant are passed in as
parameters (they come from the environment). -/
def SessionManager.create_session (sm : SessionManager) (session_id : String)
    (mode : SessionMode) (backend_name : String) (inst : Option String)
    (max_ttl : Nat) (now : Nat) : SessionManager :=
  let session_info : SessionInfo :=
    { session_id := session_id
      mode := mode
      backend_name := backend_name
      instance_crn := inst
      max_ttl := max_ttl
      created_at := now
      accepting_jobs := true
      active := true
      job_ids := [] }
  ⟨dictInsert session_id session_info sm.sessions⟩

/-- `SessionManager.get_session`. -/
def SessionManager.get_session (sm : SessionManager) (session_id : String) :
    Option SessionInfo :=
  dictGet session_id sm.sessions

/-- `SessionManager.update_session`: sets `accepting_jobs` directly,
touching nothing else; `False` when the session is unknown. -/
def SessionManager.update_session (sm : SessionManager) (session_id : String)
    (accepting_jobs : Bool) : Bool × SessionManager :=
  match dictGet session_id sm.sessions with
  | none => (false, sm)
  | some session_info =>
      (true,
       ⟨dictInsert session_id { session_info with accepting_jobs := accepting_jobs }
          sm.sessions⟩)

/-- `SessionManager.close_session`: sets `accepting_jobs=False` and
`active=False`; `False` when the session is unknown. -/
def SessionManager.close_session (sm : SessionManager) (session_id : String) :
    Bool × SessionManager :=
  match dictGet session_id sm.sessions with
  | none => (false, sm)
  | some session_info =>
      (true,
       ⟨dictInsert session_id
          { session_info with accepting_jobs := false, active := false }
          sm.sessions⟩)

/-- `SessionManager.cancel_session`: sets `accepting_jobs=False` and
`active=False`; `False` when the session is unknown. -/
def SessionManager.cancel_session (sm : SessionManager) (session_id : String) :
    Bool × SessionManager :=
  match dictGet session_id sm.sessions with
  | none => (false, sm)
  | some session_info =>
      (true,
       ⟨dictInsert session_id
          { session_info with accepting_jobs := false, active := false }
          sm.sessions⟩)

/-- `SessionManager.add_job_to_session`: appends `job_id` to the member list
unless the session is unknown or not accepting jobs. -/
def SessionManager.add_job_to_session (sm : SessionManager) (session_id : String)
    (job_id : String) : Bool × SessionManager :=
  match dictGet session_id sm.sessions with
  | none => (false, sm)
  | some session_info =>
      if session_info.accepting_jobs = false then (false, sm)
      else
        (true,
         ⟨dictInsert session_id
            { session_info with job_ids := session_info.job_ids ++ [job_id] }
            sm.sessions⟩)

/-- `SessionManager.validate_job_backend`: exact string equality against the
session's bound backend; `False` when the session is unknown. -/
def SessionManager.validate_job_backend (sm : SessionManager)
    (session_id : String) (backend_name : String) : Bool :=
  match dictGet session_id sm.sessions with
  | none => false
  | some session_info => session_info.backend_name = backend_name

/-- `SessionManager.cleanup_expired_sessions`: deletes every session whose
elapsed time exceeds `max_ttl`; returns how many were removed. -/
def SessionManager.cleanup_expired_sessions (sm : SessionManager) (now : Nat) :
    Nat × SessionManager :=
  let expired := sm.sessions.filter (fun p => p.2.max_ttl < now - p.2.created_at)
  (expired.length,
   ⟨sm.sessions.filter (fun p => ¬ p.2.max_ttl < now - p.2.created_at)⟩)

/-- One mutating call on the Session Store, with the environment-supplied
ids/instants recorded as constructor arguments. -/
inductive SessionOp where
  | create (session_id : String) (mode : SessionMode) (backend_name : String)
      (inst : Option String) (max_ttl : Nat) (now : Nat)
  | update (session_id : String) (accepting_jobs : Bool)
  | close (session_id : String)
  | cancel (session_id : String)
  | addJob (session_id : String) (job_id : String)
  | cleanup (now : Nat)
deriving DecidableEq, Repr

/-- Apply one Session Store call (dropping the returned value). -/
def SessionManager.applyOp (sm : SessionManager) : SessionOp → SessionManager
  | .create session_id mode backend_name inst max_ttl now =>
      sm.create_session session_id mode backend_name inst max_ttl now
  | .update session_id accepting_jobs =>
      (sm.update_session session_id accepting_jobs).2
  | .close session_id => (sm.close_session session_id).2
  | .cancel session_id => (sm.cancel_session session_id).2
  | .addJob session_id job_id => (sm.add_job_to_session session_id job_id).2
  | .cleanup now => (sm.cleanup_expired_sessions now).2

/-- Run a sequence of Session Store calls. -/
def SessionManager.runOps (sm : SessionManager) (ops : List SessionOp) :
    SessionManager :=
  ops.foldl SessionManager.applyOp sm

/-- The empty Session Store (`SessionManager.__init__`). -/
def SessionManager.init : SessionManager := ⟨[]⟩

/-! ### Metadata Resolver (`backend_metadata.py`, class `BackendMetadataProvider`)

The FakeProvider backend catalogue is external; it is modelled by the opaque
predicate `backend_exists`. -/

/-- Backend metadata provider configuration. -/
structure MetadataProvider where
  available_executors : List String
  backend_exists : String → Bool

/-- Python `s.split(sep, 1)` at the first `'@'`: `none` when `'@'` does not
occur (the `if "@" not in backend_name` guard), otherwise the parts before
and after the first `'@'`. -/
def splitAtFirstAtChar : List Char → Option (List Char × List Char)
  | [] => none
  | c :: cs =>
      if c = '@' then some ([], cs)
      else
        match splitAtFirstAtChar cs with
        | none => none
        | some (m, e) => some (c :: m, e)

/-- `BackendMetadataProvider.parse_backend_name`: requires an `'@'`, an
executor name in `available_executors`, and an existing metadata backend. -/
def MetadataProvider.parse_backend_name (mp : MetadataProvider)
    (backend_name : String) : Option (String × String) :=
  match splitAtFirstAtChar backend_name.toList with
  | none => none
  | some (m, e) =>
      let metadata_name := String.mk m
      let executor_name := String.mk e
      if mp.available_executors.contains executor_name = false then none
      else if mp.backend_exists metadata_name = false then none
      else some (metadata_name, executor_name)

/-! ### Job Store & Queue (`job_manager.py`, class `JobManager`)

State observable through the store's lock: the `jobs` dict, the FIFO queue
contents, the optional `SessionManager` handed to `__init__`
(`session_manager=None` allowed), and the control position of the single
worker thread.  `_execute_job` takes the store lock several times: the
CANCELLED check (lines 204-211) and the RUNNING mark (lines 214-216) are
two separate critical sections with the lock released in between, so the
worker's program point between them is part of the observable state. -/

/-- Program point of the single worker thread holding its local `job_id`:
idle (in `_worker_loop`, no job in hand), `marking` (passed the CANCELLED
check of `_execute_job`, lock released, the RUNNING mark still pending), or
`running` (marked RUNNING, inside the `try` body up to the terminal
write). -/
inductive WorkerPhase where
  | idle
  | marking (job_id : String)
  | running (job_id : String)
deriving DecidableEq, Repr

/-- Combined server state for the Job Store and its collaborators. -/
structure ServerState where
  sm : Option SessionManager
  jobs : List (String × JobInfo)
  queue : List String
  worker : WorkerPhase
deriving Repr

/-- `JobManager.create_job`: validates the backend name, then (when both a
session id and a session manager are present) session existence, backend
match and `accepting_jobs`; stores the fresh QUEUED job; appends it to the
session member list (rolling the job back when that fails); finally pushes
the id onto the FIFO queue.  Errors are the raised `ValueError` messages.
The generated `job-<uuid>` id and the current instant are parameters. -/
def create_job (mp : MetadataProvider) (st : ServerState)
    (program_id : String) (backend_name : String) (params : Nat)
    (options : Nat) (session_id : Option String) (job_id : String)
    (now : Nat) : Except String String × ServerState :=
  match mp.parse_backend_name backend_name with
  | none => (.error ("Invalid backend name: " ++ backend_name), st)
  | some _ =>
    let validation : Option String :=
      match session_id, st.sm with
      | some sid, some sm =>
          match sm.get_session sid with
          | none => some ("Session not found: " ++ sid)
          | some session_info =>
              if sm.validate_job_backend sid backend_name = false then
                some ("Backend mismatch: job backend does not match session backend "
                      ++ session_info.backend_name)
              else if session_info.accepting_jobs = false then
                some ("Session " ++ sid ++ " is not accepting new jobs")
              else none
      | _, _ => none
    match validation with
    | some e => (.error e, st)
    | none =>
      let job_info : JobInfo :=
        { job_id := job_id
          program_id := program_id
          backend_name := backend_name
          params := params
          options := options
          session_id := session_id
          status := .QUEUED
          created_at := now }
      let jobs₁ := dictInsert job_id job_info st.jobs
      match session_id, st.sm with
      | some sid, some sm =>
          let added := sm.add_job_to_session sid job_id
          if added.1 then
            (.ok job_id,
             { st with sm := some added.2, jobs := jobs₁,
                       queue := st.queue ++ [job_id] })
          else
            (.error ("Failed to add job to session " ++ sid),
             { st with sm := some added.2, jobs := dictDelete job_id jobs₁ })
      | _, _ =>
          (.ok job_id, { st with jobs := jobs₁, queue := st.queue ++ [job_id] })

/-- `JobManager.get_job` (value observed through the returned record). -/
def get_job (st : ServerState) (job_id : String) : Option JobInfo :=
  dictGet job_id st.jobs

/-- `JobManager.list_jobs` (the `dict(self.jobs)` snapshot of the mapping). -/
def list_jobs (st : ServerState) : List (String × JobInfo) := st.jobs

/-- `JobManager.cancel_job`: cancels exactly a currently QUEUED job, setting
`completed_at` and the fixed "Cancelled by user" error message. -/
def cancel_job (st : ServerState) (job_id : String) (now : Nat) :
    Bool × ServerState :=
  match dictGet job_id st.jobs with
  | none => (false, st)
  | some job_info =>
      if job_info.status = .QUEUED then
        let cancelled : JobInfo := { job_info with status := .CANCELLED, completed_at := some now, error_message := some "Cancelled by user" }
        (true, { st with jobs := dictInsert job_id cancelled st.jobs })
      else (false, st)

/-- The in-place update `cancel_session_jobs` performs on one job record. -/
def cancelSessionTransform (session_id : String) (now : Nat) (j : JobInfo) :
    JobInfo :=
  if j.session_id = some session_id ∧ j.status = .QUEUED then
    { j with status := .CANCELLED, completed_at := some now,
             error_message := some "Cancelled due to session cancellation" }
  else j

/-- `JobManager.cancel_session_jobs`: drives every QUEUED job of the session
to CANCELLED with the session-cancellation marker, returning the count. -/
def cancel_session_jobs (st : ServerState) (session_id : String) (now : Nat) :
    Nat × ServerState :=
  let touched := st.jobs.filter
    (fun p => p.2.session_id = some session_id ∧ p.2.status = .QUEUED)
  (touched.length,
   { st with jobs :=
       st.jobs.map (fun p => (p.1, cancelSessionTransform session_id now p.2)) })

/-- Outcome of the external `execute_sampler` / `execute_estimator` call:
an opaque result payload or a raised exception's message. -/
inductive ExecOutcome where
  | ok (result : Nat)
  | err (msg : String)
deriving DecidableEq, Repr

/-- The `try` body of `JobManager._execute_job` after the RUNNING mark:
re-parse the backend name, look up the executor in the registry, dispatch on
`program_id` ("sampler" / "estimator", anything else raises
"Unknown program_id: ..."), with the external call's outcome supplied as a
parameter.  Parameter deserialization never fails (it falls back to the raw
params).  The first raised exception wins, exactly as in the source. -/
def execute_result (mp : MetadataProvider) (executors : List String)
    (job_info : JobInfo) (outcome : ExecOutcome) : Except String Nat :=
  match mp.parse_backend_name job_info.backend_name with
  | none => .error ("Invalid backend name: " ++ job_info.backend_name)
  | some parsed =>
      if executors.contains parsed.2 = false then
        .error ("Executor not found: " ++ parsed.2)
      else if job_info.program_id = "sampler" ∨ job_info.program_id = "estimator" then
        match outcome with
        | .ok r => .ok r
        | .err e => .error e
      else .error ("Unknown program_id: " ++ job_info.program_id)

/-- First critical section of one worker iteration (`_worker_loop` queue
poll plus `_execute_job` lines 204-211): pop the next id from the FIFO
queue; drop it if the job is unknown or already CANCELLED; otherwise the
lock is released with the job id held in the worker's local variable — the
RUNNING mark is still pending. -/
def workerCheck (st : ServerState) : ServerState :=
  match st.queue with
  | [] => st
  | job_id :: rest =>
      let st₁ := { st with queue := rest }
      match dictGet job_id st₁.jobs with
      | none => st₁
      | some job_info =>
          if job_info.status = .CANCELLED then st₁
          else { st₁ with worker := .marking job_id }

/-- Second critical section (`_execute_job` lines 214-216): set the current
record's status to RUNNING and `started_at`, unconditionally — the
CANCELLED check is not repeated under this lock. -/
def workerMark (st : ServerState) (now : Nat) : ServerState :=
  match st.worker with
  | .marking job_id =>
      match dictGet job_id st.jobs with
      | none => { st with worker := .idle }
      | some job_info =>
          let running : JobInfo := { job_info with status := .RUNNING, started_at := some now }
          { st with jobs := dictInsert job_id running st.jobs,
                    worker := .running job_id }
  | _ => st

/-- Last critical section of `_execute_job` (after the executor call):
record COMPLETED with the result payload, or FAILED with the exception
message caught by the `except` block; the worker then moves on. -/
def workerFinish (mp : MetadataProvider) (executors : List String)
    (st : ServerState) (now : Nat) (outcome : ExecOutcome) : ServerState :=
  match st.worker with
  | .running job_id =>
      match dictGet job_id st.jobs with
      | none => { st with worker := .idle }
      | some job_info =>
          match execute_result mp executors job_info outcome with
          | .ok r =>
              let done : JobInfo := { job_info with status := .COMPLETED, completed_at := some now, result_data := some r }
              { st with jobs := dictInsert job_id done st.jobs, worker := .idle }
          | .error e =>
              let failed : JobInfo := { job_info with status := .FAILED, completed_at := some now, error_message := some e }
              { st with jobs := dictInsert job_id failed st.jobs, worker := .idle }
  | _ => st

/-- The freshly started server (`JobManager.__init__` with a fresh
`SessionManager`): no jobs, empty queue, idle worker. -/
def initState : ServerState :=
  { sm := some SessionManager.init, jobs := [], queue := [], worker := .idle }

/-- A concrete provider configuration for witnesses: a single executor
"aer" and a single known metadata backend "fake_manila". -/
def demoProvider : MetadataProvider :=
  ⟨["aer"], fun m => m == "fake_manila"⟩

/-! ### Reference-level model of the Job Store

Python getters hand out object references.  To settle claims about copying
versus aliasing, this model makes the references explicit: `heap` holds the
`JobInfo` objects (an address is an index into it) and `jobs` is the
`JobManager.jobs` dict mapping ids to addresses.  In-place field assignment
(`job_info.status = ...`) becomes `List.set` at the object's address. -/

structure JobHeapStore where
  heap : List JobInfo
  jobs : List (String × Nat)
deriving Repr

/-- Read the object a reference points to. -/
def JobHeapStore.deref (st : JobHeapStore) (addr : Nat) : Option JobInfo :=
  st.heap.get? addr

/-- `JobManager.get_job` returns `self.jobs.get(job_id)`: the stored
reference itself, no copy is taken. -/
def JobHeapStore.get_job (st : JobHeapStore) (job_id : String) : Option Nat :=
  dictGet job_id st.jobs

/-- `JobManager.list_jobs` returns `dict(self.jobs)`: a copy of the mapping
whose values are the stored references (a shallow copy). -/
def JobHeapStore.list_jobs (st : JobHeapStore) : List (String × Nat) :=
  st.jobs

/-- `JobManager.cancel_job` in the reference model: mutates the stored
object in place at its address. -/
def JobHeapStore.cancel_job (st : JobHeapStore) (job_id : String) (now : Nat) :
    Bool × JobHeapStore :=
  match dictGet job_id st.jobs with
  | none => (false, st)
  | some addr =>
      match st.heap.get? addr with
      | none => (false, st)
      | some job_info =>
          if job_info.status = .QUEUED then
            let cancelled : JobInfo := { job_info with status := .CANCELLED, completed_at := some now, error_message := some "Cancelled by user" }
            (true, { st with heap := st.heap.set addr cancelled })
          else (false, st)

/-- A QUEUED job object used to probe the reference behaviour. -/
def snapshotJob : JobInfo :=
  { job_id := "j", program_id := "sampler", backend_name := "fake_manila@aer",
    params := 0, options := 0, status := JobStatus.QUEUED, created_at := 0 }

/-- A one-job reference store: the object lives at address 0. -/
def snapshotStore : JobHeapStore :=
  { heap := [snapshotJob], jobs := [("j", 0)] }

/-- The `_execute_job` RUNNING mark in the reference model: mutate the
object in place (`job_info.status = JobStatus.RUNNING`). -/
def JobHeapStore.markRunning (st : JobHeapStore) (job_id : String) (now : Nat) :
    JobHeapStore :=
  match dictGet job_id st.jobs with
  | none => st
  | some addr =>
      match st.heap.get? addr with
      | none => st
      | some job_info =>
          if job_info.status = .CANCELLED then st
          else
            let running : JobInfo := { job_info with status := .RUNNING, started_at := some now }
            { st with heap := st.heap.set addr running }

/-! ### Predicates used by the claims -/

/-- Every inactive session has also stopped accepting jobs. -/
def sessionFlagsInv (sm : SessionManager) : Prop :=
  ∀ sid s, sm.get_session sid = some s → s.active = false → s.accepting_jobs = false

/-- The Session Store trace that closes a session and then turns its
`accepting_jobs` flag back on. -/
def reopenOps : List SessionOp :=
  [.create "s" .DEDICATED "fake_manila@aer" none 28800 0, .close "s",
   .update "s" true]

/-- Recognizes the one Session Store call that turns `accepting_jobs` back
on: `update_session(id, accepting_jobs=True)`. -/
def isUpdateTrue : SessionOp → Bool
  | .update _ true => true
  | _ => false

/-- A trace that never calls `update_session(id, accepting_jobs=True)`. -/
def noReopen (ops : List SessionOp) : Prop :=
  ∀ op ∈ ops, isUpdateTrue op = false

/-- A create-then-close trace (no reopening update). -/
def closeOnlyOps : List SessionOp :=
  [.create "s" .DEDICATED "fake_manila@aer" none 28800 0, .close "s"]

/-- How many times a job id occurs in a session's member list. -/
def jobCountIn (sm : SessionManager) (sid : String) (j : String) : Nat :=
  match sm.get_session sid with
  | none => 0
  | some s => s.job_ids.count j

/-- The Session Store trace that registers the same job id twice through the
exposed `add_job_to_session` API. -/
def doubleAddOps : List SessionOp :=
  [.create "s" .DEDICATED "fake_manila@aer" none 28800 0, .addJob "s" "j",
   .addJob "s" "j"]

/-- A trace that registers a job id once, as `create_job` does with its
freshly generated uuid ids. -/
def singleAddOps : List SessionOp :=
  [.create "s" .DEDICATED "fake_manila@aer" none 28800 0, .addJob "s" "j"]

/-- Legal evolution of a single job record between two observation points,
per the claimed finite state machine: unchanged, newly created as QUEUED,
or one of the four legal status transitions QUEUED→RUNNING,
RUNNING→COMPLETED, RUNNING→FAILED, QUEUED→CANCELLED (and jobs are never
deleted).  Once a terminal status is recorded, only "unchanged" applies. -/
def jobStepOk : Option JobInfo → Option JobInfo → Prop
  | none, none => True
  | none, some j => j.status = JobStatus.QUEUED
  | some _, none => False
  | some j, some j₂ =>
      j₂ = j
      ∨ (j.status = JobStatus.QUEUED ∧ j₂.status = JobStatus.RUNNING)
      ∨ (j.status = JobStatus.RUNNING ∧
          (j₂.status = JobStatus.COMPLETED ∨ j₂.status = JobStatus.FAILED))
      ∨ (j.status = JobStatus.QUEUED ∧ j₂.status = JobStatus.CANCELLED)

instance (a b : Option JobInfo) : Decidable (jobStepOk a b) :=
  match a, b with
  | none, none => isTrue trivial
  | none, some j => inferInstanceAs (Decidable (j.status = JobStatus.QUEUED))
  | some _, none => isFalse id
  | some j, some j₂ =>
      inferInstanceAs (Decidable (j₂ = j
        ∨ (j.status = JobStatus.QUEUED ∧ j₂.status = JobStatus.RUNNING)
        ∨ (j.status = JobStatus.RUNNING ∧
            (j₂.status = JobStatus.COMPLETED ∨ j₂.status = JobStatus.FAILED))
        ∨ (j.status = JobStatus.QUEUED ∧ j₂.status = JobStatus.CANCELLED)))

/-! The cancel/execute race of `_execute_job`: the worker passes the
CANCELLED check, releases the lock, and `cancel_job` runs to completion in
the window before the RUNNING mark.  Each state below is one critical
section later. -/

/-- One QUEUED job "job-1", admitted at instant 0, on a fresh server. -/
def raceAdmitted : ServerState :=
  (create_job demoProvider initState "sampler" "fake_manila@aer" 0 0 none
    "job-1" 0).2

/-- The worker has popped "job-1" and passed the CANCELLED check
(`_execute_job` lines 204-211); the lock is released. -/
def raceChecked : ServerState := workerCheck raceAdmitted

/-- `cancel_job("job-1")` interposes in the window: result flag and state. -/
def raceCancelled : Bool × ServerState := cancel_job raceChecked "job-1" 1

/-- The worker re-acquires the lock and marks RUNNING
(`_execute_job` lines 214-216) — no re-check of CANCELLED. -/
def raceMarked : ServerState := workerMark raceCancelled.2 2

/-- The executor call returns and the worker records the terminal status. -/
def raceDone : ServerState :=
  workerFinish demoProvider ["aer"] raceMarked 3 (ExecOutcome.ok 42)

/-! ### Dictionary lemmas -/

theorem dictGet_insert_self (k : String) (v : α) (d : List (String × α)) :
    dictGet k (dictInsert k v d) = some v := by
  induction d with
  | nil => simp [dictGet, dictInsert]
  | cons p rest ih =>
      obtain ⟨k₁, v₁⟩ := p
      by_cases h : k₁ = k <;> simp [dictGet, dictInsert, h, ih]

theorem dictGet_insert_ne (k k₂ : String) (v : α) (d : List (String × α))
    (h : k₂ ≠ k) : dictGet k₂ (dictInsert k v d) = dictGet k₂ d := by
  induction d with
  | nil => simp [dictGet, dictInsert, Ne.symm h]
  | cons p rest ih =>
      obtain ⟨k₁, v₁⟩ := p
      by_cases h₁ : k₁ = k
      · subst h₁
        simp [dictGet, dictInsert, Ne.symm h]
      · simp only [dictInsert, if_neg h₁]
        by_cases h₂ : k₁ = k₂ <;> simp [dictGet, h₂, ih]

theorem dictGet_delete_self (k : String) (d : List (String × α))
    (hd : dictGet k d = none) : dictGet k (dictDelete k d) = none := by
  induction d with
  | nil => simp [dictGet, dictDelete]
  | cons p rest ih =>
      obtain ⟨k₁, v₁⟩ := p
      by_cases h : k₁ = k
      · subst h
        simp [dictGet] at hd
      · simp only [dictGet, if_neg h] at hd
        simp [dictDelete, dictGet, h, ih hd]

theorem dictDelete_insert_fresh (k : String) (v : α) (d : List (String × α))
    (hd : dictGet k d = none) : dictDelete k (dictInsert k v d) = d := by
  induction d with
  | nil => simp [dictInsert, dictDelete]
  | cons p rest ih =>
      obtain ⟨k₁, v₁⟩ := p
      by_cases h : k₁ = k
      · subst h
        simp [dictGet] at hd
      · simp only [dictGet, if_neg h] at hd
        simp [dictInsert, dictDelete, h, ih hd]

theorem dictInsert_insert (k : String) (v w : α) (d : List (String × α)) :
    dictInsert k v (dictInsert k w d) = dictInsert k v d := by
  induction d with
  | nil => simp [dictInsert]
  | cons p rest ih =>
      obtain ⟨k₁, v₁⟩ := p
      by_cases h : k₁ = k <;> simp [dictInsert, h, ih]


theorem keysNodup_nil : keysNodup ([] : List (String × α)) := by
  simp [keysNodup]

theorem dictGet_eq_none (k : String) (d : List (String × α))
    (h : k ∉ d.map Prod.fst) : dictGet k d = none := by
  induction d with
  | nil => simp [dictGet]
  | cons p rest ih =>
      obtain ⟨k₁, v₁⟩ := p
      simp only [List.map_cons, List.mem_cons] at h
      push_neg at h
      simp [dictGet, Ne.symm h.1, ih h.2]

theorem mem_keys_of_dictGet (k : String) (v : α) (d : List (String × α))
    (h : dictGet k d = some v) : k ∈ d.map Prod.fst := by
  induction d with
  | nil => simp [dictGet] at h
  | cons p rest ih =>
      obtain ⟨k₁, v₁⟩ := p
      by_cases hk : k₁ = k
      · simp [hk]
      · simp only [dictGet, if_neg hk] at h
        simp [ih h]

theorem keys_dictInsert (k : String) (v : α) (d : List (String × α)) :
    (dictInsert k v d).map Prod.fst =
      if k ∈ d.map Prod.fst then d.map Prod.fst else d.map Prod.fst ++ [k] := by
  induction d with
  | nil => simp [dictInsert]
  | cons p rest ih =>
      obtain ⟨k₁, v₁⟩ := p
      by_cases hk : k₁ = k
      · subst hk
        simp [dictInsert]
      · by_cases hmem : k ∈ rest.map Prod.fst <;>
          simp [dictInsert, hk, Ne.symm hk, hmem, ih]

theorem keysNodup_insert (k : String) (v : α) (d : List (String × α))
    (h : keysNodup d) : keysNodup (dictInsert k v d) := by
  unfold keysNodup at h ⊢
  rw [keys_dictInsert]
  by_cases hmem : k ∈ d.map Prod.fst
  · simpa [hmem] using h
  · rw [if_neg hmem]
    refine List.Nodup.append h (List.nodup_singleton k) ?_
    intro x hx hx₂
    simp only [List.mem_singleton] at hx₂
    exact hmem (hx₂ ▸ hx)

theorem dictDelete_sublist (k : String) (d : List (String × α)) :
    (dictDelete k d).Sublist d := by
  induction d with
  | nil => simp [dictDelete]
  | cons p rest ih =>
      obtain ⟨k₁, v₁⟩ := p
      by_cases hk : k₁ = k
      · simp only [dictDelete, if_pos hk]
        exact List.sublist_cons_self _ _
      · simp only [dictDelete, if_neg hk]
        exact ih.cons₂ (k₁, v₁)

theorem keysNodup_delete (k : String) (d : List (String × α))
    (h : keysNodup d) : keysNodup (dictDelete k d) := by
  unfold keysNodup at h ⊢
  exact (List.Sublist.map Prod.fst (dictDelete_sublist k d)).nodup h

theorem keysNodup_filter (p : String × α → Bool) (d : List (String × α))
    (h : keysNodup d) : keysNodup (d.filter p) := by
  unfold keysNodup at h ⊢
  exact (List.Sublist.map Prod.fst (List.filter_sublist d)).nodup h

theorem dictGet_filter_sub (k : String) (v : α) (p : String × α → Bool)
    (d : List (String × α)) (hnd : keysNodup d)
    (h : dictGet k (d.filter p) = some v) : dictGet k d = some v := by
  induction d with
  | nil => simp [dictGet] at h
  | cons q rest ih =>
      obtain ⟨k₁, v₁⟩ := q
      simp only [keysNodup, List.map_cons, List.nodup_cons] at hnd
      by_cases hk : k₁ = k
      · subst hk
        by_cases hp : p (k₁, v₁) = true
        · simp only [List.filter_cons, hp, if_pos] at h
          simp only [dictGet, if_pos rfl] at h ⊢
          exact h
        · simp [List.filter_cons, hp] at h
          have hnone : dictGet k₁ (rest.filter p) = none := by
            apply dictGet_eq_none
            intro hmem
            rcases List.mem_map.mp hmem with ⟨q, hq, hfst⟩
            exact hnd.1 (hfst ▸ List.mem_map_of_mem Prod.fst (List.mem_of_mem_filter hq))
          rw [hnone] at h
          cases h
      · by_cases hp : p (k₁, v₁) = true
        · simp only [List.filter_cons, hp, if_pos] at h
          simp only [dictGet, if_neg hk] at h ⊢
          exact ih hnd.2 h
        · simp [List.filter_cons, hp] at h
          simp only [dictGet, if_neg hk]
          exact ih hnd.2 h

theorem dictGet_map_value (k : String) (f : α → α) (d : List (String × α)) :
    dictGet k (d.map (fun p => (p.1, f p.2))) = (dictGet k d).map f := by
  induction d with
  | nil => simp [dictGet]
  | cons q rest ih =>
      obtain ⟨k₁, v₁⟩ := q
      by_cases hk : k₁ = k <;> simp [dictGet, hk, ih]

/-! ### Session Store trace lemmas -/

theorem keysNodup_applyOp (sm : SessionManager) (op : SessionOp)
    (hnd : keysNodup sm.sessions) : keysNodup (sm.applyOp op).sessions := by
  cases op with
  | create sid mode bn inst ttl now =>
      exact keysNodup_insert _ _ _ hnd
  | update sid b =>
      show keysNodup (sm.update_session sid b).2.sessions
      unfold SessionManager.update_session
      cases h : dictGet sid sm.sessions with
      | none => exact hnd
      | some s => exact keysNodup_insert _ _ _ hnd
  | close sid =>
      show keysNodup (sm.close_session sid).2.sessions
      unfold SessionManager.close_session
      cases h : dictGet sid sm.sessions with
      | none => exact hnd
      | some s => exact keysNodup_insert _ _ _ hnd
  | cancel sid =>
      show keysNodup (sm.cancel_session sid).2.sessions
      unfold SessionManager.cancel_session
      cases h : dictGet sid sm.sessions with
      | none => exact hnd
      | some s => exact keysNodup_insert _ _ _ hnd
  | addJob sid j =>
      show keysNodup (sm.add_job_to_session sid j).2.sessions
      unfold SessionManager.add_job_to_session
      cases h : dictGet sid sm.sessions with
      | none => exact hnd
      | some s =>
          by_cases ha : s.accepting_jobs = false
          · simp only [ha, if_pos]
            exact hnd
          · simp only [ha, if_neg, if_false]
            exact keysNodup_insert _ _ _ hnd
  | cleanup now =>
      exact keysNodup_filter _ _ hnd

theorem sessionFlagsInv_applyOp (sm : SessionManager) (op : SessionOp)
    (hnd : keysNodup sm.sessions) (hinv : sessionFlagsInv sm)
    (hop : isUpdateTrue op = false) : sessionFlagsInv (sm.applyOp op) := by
  cases op with
  | create sid mode bn inst ttl now =>
      intro sid₂ s₂ hs₂ hact
      unfold SessionManager.applyOp SessionManager.create_session
        SessionManager.get_session at hs₂
      by_cases he : sid₂ = sid
      · subst he
        rw [dictGet_insert_self] at hs₂
        cases hs₂
        cases hact
      · rw [dictGet_insert_ne _ _ _ _ he] at hs₂
        exact hinv sid₂ s₂ hs₂ hact
  | update sid b =>
      cases b with
      | true => cases hop
      | false =>
          intro sid₂ s₂ hs₂ hact
          replace hs₂ :
              (sm.update_session sid false).2.get_session sid₂ = some s₂ := hs₂
          unfold SessionManager.update_session at hs₂
          cases h : dictGet sid sm.sessions with
          | none =>
              rw [h] at hs₂
              exact hinv sid₂ s₂ hs₂ hact
          | some s =>
              rw [h] at hs₂
              unfold SessionManager.get_session at hs₂
              by_cases he : sid₂ = sid
              · subst he
                rw [dictGet_insert_self] at hs₂
                cases hs₂
                rfl
              · rw [dictGet_insert_ne _ _ _ _ he] at hs₂
                exact hinv sid₂ s₂ hs₂ hact
  | close sid =>
      intro sid₂ s₂ hs₂ hact
      replace hs₂ : (sm.close_session sid).2.get_session sid₂ = some s₂ := hs₂
      unfold SessionManager.close_session at hs₂
      cases h : dictGet sid sm.sessions with
      | none =>
          rw [h] at hs₂
          exact hinv sid₂ s₂ hs₂ hact
      | some s =>
          rw [h] at hs₂
          unfold SessionManager.get_session at hs₂
          by_cases he : sid₂ = sid
          · subst he
            rw [dictGet_insert_self] at hs₂
            cases hs₂
            rfl
          · rw [dictGet_insert_ne _ _ _ _ he] at hs₂
            exact hinv sid₂ s₂ hs₂ hact
  | cancel sid =>
      intro sid₂ s₂ hs₂ hact
      replace hs₂ : (sm.cancel_session sid).2.get_session sid₂ = some s₂ := hs₂
      unfold SessionManager.cancel_session at hs₂
      cases h : dictGet sid sm.sessions with
      | none =>
          rw [h] at hs₂
          exact hinv sid₂ s₂ hs₂ hact
      | some s =>
          rw [h] at hs₂
          unfold SessionManager.get_session at hs₂
          by_cases he : sid₂ = sid
          · subst he
            rw [dictGet_insert_self] at hs₂
            cases hs₂
            rfl
          · rw [dictGet_insert_ne _ _ _ _ he] at hs₂
            exact hinv sid₂ s₂ hs₂ hact
  | addJob sid j =>
      intro sid₂ s₂ hs₂ hact
      replace hs₂ :
          (sm.add_job_to_session sid j).2.get_session sid₂ = some s₂ := hs₂
      unfold SessionManager.add_job_to_session at hs₂
      cases h : dictGet sid sm.sessions with
      | none =>
          rw [h] at hs₂
          exact hinv sid₂ s₂ hs₂ hact
      | some s =>
          rw [h] at hs₂
          cases hacc : s.accepting_jobs with
          | false =>
              simp only [hacc, if_pos] at hs₂
              exact hinv sid₂ s₂ hs₂ hact
          | true =>
              simp only [hacc, Bool.true_eq_false, if_false] at hs₂
              unfold SessionManager.get_session at hs₂
              by_cases he : sid₂ = sid
              · subst he
                rw [dictGet_insert_self] at hs₂
                cases hs₂
                have hsa : s.active = false := hact
                have hcontr := hinv _ s h hsa
                rw [hacc] at hcontr
                cases hcontr
              · rw [dictGet_insert_ne _ _ _ _ he] at hs₂
                exact hinv sid₂ s₂ hs₂ hact
  | cleanup now =>
      intro sid₂ s₂ hs₂ hact
      replace hs₂ :
          (sm.cleanup_expired_sessions now).2.get_session sid₂ = some s₂ := hs₂
      unfold SessionManager.cleanup_expired_sessions
        SessionManager.get_session at hs₂
      exact hinv sid₂ s₂ (dictGet_filter_sub _ _ _ _ hnd hs₂) hact

theorem sessionFlagsInv_runOps (ops : List SessionOp) (sm : SessionManager)
    (hnd : keysNodup sm.sessions) (hinv : sessionFlagsInv sm)
    (hops : noReopen ops) : sessionFlagsInv (sm.runOps ops) := by
  induction ops generalizing sm with
  | nil => exact hinv
  | cons op rest ih =>
      have hstep : sm.runOps (op :: rest) = (sm.applyOp op).runOps rest := rfl
      rw [hstep]
      exact ih (sm.applyOp op) (keysNodup_applyOp sm op hnd)
        (sessionFlagsInv_applyOp sm op hnd hinv
          (hops op (List.mem_cons_self op rest)))
        (fun o ho => hops o (List.mem_cons_of_mem op ho))

theorem jobCountIn_applyOp (sm : SessionManager) (op : SessionOp)
    (sid j : String) (hnd : keysNodup sm.sessions) :
    jobCountIn (sm.applyOp op) sid j ≤
      jobCountIn sm sid j + (if op = SessionOp.addJob sid j then 1 else 0) := by
  cases op with
  | create sid₁ mode bn inst ttl now =>
      by_cases he : sid = sid₁
      · subst he
        simp [jobCountIn, SessionManager.applyOp, SessionManager.create_session,
          SessionManager.get_session, dictGet_insert_self]
      · simp only [jobCountIn, SessionManager.applyOp,
          SessionManager.create_session, SessionManager.get_session,
          dictGet_insert_ne _ _ _ _ he]
        exact Nat.le_add_right _ _
  | update sid₁ b =>
      cases h : dictGet sid₁ sm.sessions with
      | none =>
          simp only [jobCountIn, SessionManager.applyOp,
            SessionManager.update_session, SessionManager.get_session, h]
          exact Nat.le_add_right _ _
      | some s =>
          by_cases he : sid = sid₁
          · subst he
            simp only [jobCountIn, SessionManager.applyOp,
              SessionManager.update_session, SessionManager.get_session, h,
              dictGet_insert_self]
            exact Nat.le_add_right _ _
          · simp only [jobCountIn, SessionManager.applyOp,
              SessionManager.update_session, SessionManager.get_session, h,
              dictGet_insert_ne _ _ _ _ he]
            exact Nat.le_add_right _ _
  | close sid₁ =>
      cases h : dictGet sid₁ sm.sessions with
      | none =>
          simp only [jobCountIn, SessionManager.applyOp,
            SessionManager.close_session, SessionManager.get_session, h]
          exact Nat.le_add_right _ _
      | some s =>
          by_cases he : sid = sid₁
          · subst he
            simp only [jobCountIn, SessionManager.applyOp,
              SessionManager.close_session, SessionManager.get_session, h,
              dictGet_insert_self]
            exact Nat.le_add_right _ _
          · simp only [jobCountIn, SessionManager.applyOp,
              SessionManager.close_session, SessionManager.get_session, h,
              dictGet_insert_ne _ _ _ _ he]
            exact Nat.le_add_right _ _
  | cancel sid₁ =>
      cases h : dictGet sid₁ sm.sessions with
      | none =>
          simp only [jobCountIn, SessionManager.applyOp,
            SessionManager.cancel_session, SessionManager.get_session, h]
          exact Nat.le_add_right _ _
      | some s =>
          by_cases he : sid = sid₁
          · subst he
            simp only [jobCountIn, SessionManager.applyOp,
              SessionManager.cancel_session, SessionManager.get_session, h,
              dictGet_insert_self]
            exact Nat.le_add_right _ _
          · simp only [jobCountIn, SessionManager.applyOp,
              SessionManager.cancel_session, SessionManager.get_session, h,
              dictGet_insert_ne _ _ _ _ he]
            exact Nat.le_add_right _ _
  | addJob sid₁ j₁ =>
      cases h : dictGet sid₁ sm.sessions with
      | none =>
          simp only [jobCountIn, SessionManager.applyOp,
            SessionManager.add_job_to_session, SessionManager.get_session, h]
          exact Nat.le_add_right _ _
      | some s =>
          cases hacc : s.accepting_jobs with
          | false =>
              simp only [jobCountIn, SessionManager.applyOp,
                SessionManager.add_job_to_session, SessionManager.get_session,
                h, hacc, if_pos]
              exact Nat.le_add_right _ _
          | true =>
              by_cases he : sid = sid₁
              · subst he
                simp only [jobCountIn, SessionManager.applyOp,
                  SessionManager.add_job_to_session, SessionManager.get_session,
                  h, hacc, Bool.true_eq_false, if_false, dictGet_insert_self,
                  List.count_append]
                by_cases hj : j₁ = j
                · subst hj
                  simp
                · have hne : (SessionOp.addJob sid j₁ = SessionOp.addJob sid j)
                      = False := by
                    simp [hj]
                  simp [hne, List.count_singleton', hj]
              · simp only [jobCountIn, SessionManager.applyOp,
                  SessionManager.add_job_to_session, SessionManager.get_session,
                  h, hacc, Bool.true_eq_false, if_false,
                  dictGet_insert_ne _ _ _ _ he]
                exact Nat.le_add_right _ _
  | cleanup now =>
      cases h : dictGet sid
          (sm.sessions.filter (fun p => ¬ p.2.max_ttl < now - p.2.created_at)) with
      | none =>
          simp only [jobCountIn, SessionManager.applyOp,
            SessionManager.cleanup_expired_sessions, SessionManager.get_session, h]
          exact Nat.zero_le _
      | some s =>
          have h₂ : dictGet sid sm.sessions = some s :=
            dictGet_filter_sub sid s
              (fun q => decide (¬ q.2.max_ttl < now - q.2.created_at))
              sm.sessions hnd (by simpa using h)
          simp only [jobCountIn, SessionManager.applyOp,
            SessionManager.cleanup_expired_sessions, SessionManager.get_session,
            h, h₂]
          exact Nat.le_add_right _ _

theorem jobCountIn_runOps (ops : List SessionOp) (sm : SessionManager)
    (sid j : String) (hnd : keysNodup sm.sessions) :
    jobCountIn (sm.runOps ops) sid j ≤
      jobCountIn sm sid j + ops.count (SessionOp.addJob sid j) := by
  induction ops generalizing sm with
  | nil => simp [SessionManager.runOps]
  | cons op rest ih =>
      have hstep : sm.runOps (op :: rest) = (sm.applyOp op).runOps rest := rfl
      rw [hstep]
      have h₁ := jobCountIn_applyOp sm op sid j hnd
      have h₂ := ih (sm.applyOp op) (keysNodup_applyOp sm op hnd)
      by_cases hop : op = SessionOp.addJob sid j
      · subst hop
        rw [if_pos rfl] at h₁
        rw [List.count_cons_self]
        omega
      · rw [if_neg hop] at h₁
        rw [List.count_cons_of_ne (fun hc => hop hc.symm)]
        omega

/-! ### Claim C6: multiplicity of job ids in session member lists -/

/-- C6 counterexample: two direct `add_job_to_session` calls with the same
job id leave that id twice in the member list, so "each job id appears at
most once" fails for unrestricted Session Store operation sequences. -/
theorem C6_counterexample :
    jobCountIn (SessionManager.init.runOps doubleAddOps) "s" "j" = 2 := by
  decide

/-- C6 amended: a session member list gains one entry per successful
`add_job_to_session` call, so when a job id is passed to
`add_job_to_session` at most once over the whole trace — which is how
`create_job` uses it, with freshly generated uuid ids — the id appears in
the member list at most once, and it appears at all only if such a call is
in the trace. -/
theorem C6_member_list_multiplicity (ops : List SessionOp) (sid j : String)
    (h₁ : ops.count (SessionOp.addJob sid j) ≤ 1) :
    jobCountIn (SessionManager.init.runOps ops) sid j ≤ 1
    ∧ (ops.count (SessionOp.addJob sid j) = 0 →
        jobCountIn (SessionManager.init.runOps ops) sid j = 0) := by
  have h := jobCountIn_runOps ops SessionManager.init sid j keysNodup_nil
  have hz : jobCountIn SessionManager.init sid j = 0 := rfl
  constructor
  · omega
  · intro h₀
    omega

/-- C6 witness: a trace adding the job id once. -/
theorem C6_member_list_multiplicity_witness :
    singleAddOps.count (SessionOp.addJob "s" "j") ≤ 1
    ∧ (jobCountIn (SessionManager.init.runOps singleAddOps) "s" "j" ≤ 1
       ∧ (singleAddOps.count (SessionOp.addJob "s" "j") = 0 →
           jobCountIn (SessionManager.init.runOps singleAddOps) "s" "j" = 0)) :=
  ⟨by decide, C6_member_list_multiplicity singleAddOps "s" "j" (by decide)⟩

/-! ### Claim C1: inactive sessions and the accepting_jobs flag -/

/-- C1 counterexample: after `create_session`, `close_session` and then
`update_session(accepting_jobs=True)`, the session has `active = false`
together with `accepting_jobs = true`, so the claimed invariant fails. -/
theorem C1_counterexample :
    ((SessionManager.init.runOps reopenOps).get_session "s").map
        (fun s => (s.active, s.accepting_jobs)) = some (false, true) := by
  decide

/-- C1 amended: closing or cancelling does set both flags to false, but the
implication `active=false → accepting_jobs=false` is only preserved by
traces that never call `update_session(id, accepting_jobs=True)`; that call
sets `accepting_jobs=true` while leaving `active=false`. -/
theorem C1_inactive_not_accepting (ops : List SessionOp) (hops : noReopen ops) :
    sessionFlagsInv (SessionManager.init.runOps ops) :=
  sessionFlagsInv_runOps ops SessionManager.init keysNodup_nil
    (fun sid s hs => by cases hs) hops

/-- C1 witness: a create-then-close trace contains no reopening update and
satisfies the invariant. -/
theorem C1_inactive_not_accepting_witness :
    noReopen closeOnlyOps
    ∧ sessionFlagsInv (SessionManager.init.runOps closeOnlyOps) :=
  ⟨by unfold noReopen closeOnlyOps; decide,
   C1_inactive_not_accepting closeOnlyOps (by unfold noReopen closeOnlyOps; decide)⟩

/-! ### Claim C8: close_session and cancel_session coincide -/

/-- C8: for every Session Store state and session id, `cancel_session` and
`close_session` are literally the same operation; both succeed exactly when
the session exists, and then set `accepting_jobs=false` and `active=false`
while changing no other field of that session and no other session;
repeating the call is idempotent. -/
theorem C8_close_cancel_same (sm : SessionManager) (sid : String) :
    sm.cancel_session sid = sm.close_session sid
    ∧ ((sm.close_session sid).1 = true ↔ (sm.get_session sid).isSome = true)
    ∧ (∀ s, sm.get_session sid = some s →
        (sm.close_session sid).2.get_session sid
          = some { s with accepting_jobs := false, active := false })
    ∧ (∀ sid₂, sid₂ ≠ sid →
        (sm.close_session sid).2.get_session sid₂ = sm.get_session sid₂)
    ∧ ((sm.close_session sid).2.close_session sid).2 = (sm.close_session sid).2 := by
  refine ⟨rfl, ?_, ?_, ?_, ?_⟩
  · unfold SessionManager.close_session SessionManager.get_session
    cases dictGet sid sm.sessions <;> simp
  · intro s hs
    unfold SessionManager.get_session at hs
    unfold SessionManager.close_session SessionManager.get_session
    rw [hs]
    simp [dictGet_insert_self]
  · intro sid₂ hne
    unfold SessionManager.close_session SessionManager.get_session
    cases dictGet sid sm.sessions <;> simp [dictGet_insert_ne _ _ _ _ hne]
  · unfold SessionManager.close_session
    cases h : dictGet sid sm.sessions with
    | none => simp [h]
    | some s => simp [h, dictGet_insert_self, dictInsert_insert]

/-- C8 witness: instantiated on a one-session store. -/
theorem C8_close_cancel_same_witness :
    (SessionManager.close_session ⟨[("s", { session_id := "s", mode := .DEDICATED, backend_name := "b@aer", max_ttl := 10, created_at := 0 })]⟩ "s").2.get_session "s"
      = some { session_id := "s", mode := .DEDICATED, backend_name := "b@aer", max_ttl := 10, created_at := 0, accepting_jobs := false, active := false } :=
  (C8_close_cancel_same ⟨[("s", { session_id := "s", mode := .DEDICATED, backend_name := "b@aer", max_ttl := 10, created_at := 0 })]⟩ "s").2.2.1
    { session_id := "s", mode := .DEDICATED, backend_name := "b@aer", max_ttl := 10, created_at := 0 } (by decide)

/-! ### Claim C3: cancel_job semantics -/

/-- C3: `cancel_job` returns true exactly when the job exists with status
QUEUED; it then records CANCELLED, `completed_at`, and the fixed
"Cancelled by user" message, touching no other job and no other component;
in every other case it returns false and leaves the state unchanged. -/
theorem C3_cancel_job_queued_only (st : ServerState) (jid : String) (now : Nat) :
    ((cancel_job st jid now).1 = true ↔
      ∃ j, get_job st jid = some j ∧ j.status = JobStatus.QUEUED)
    ∧ (∀ j, get_job st jid = some j → j.status = JobStatus.QUEUED →
        get_job (cancel_job st jid now).2 jid =
          some { j with status := JobStatus.CANCELLED, completed_at := some now,
                        error_message := some "Cancelled by user" }
        ∧ (∀ k, k ≠ jid → get_job (cancel_job st jid now).2 k = get_job st k)
        ∧ (cancel_job st jid now).2.queue = st.queue
        ∧ (cancel_job st jid now).2.sm = st.sm
        ∧ (cancel_job st jid now).2.worker = st.worker)
    ∧ ((cancel_job st jid now).1 = false → (cancel_job st jid now).2 = st) := by
  cases h : dictGet jid st.jobs with
  | none =>
      refine ⟨?_, ?_, ?_⟩
      · simp [cancel_job, get_job, h]
      · intro j hj
        simp [get_job, h] at hj
      · intro _
        simp [cancel_job, h]
  | some j =>
      by_cases hq : j.status = JobStatus.QUEUED
      · refine ⟨?_, ?_, ?_⟩
        · simp only [cancel_job, h, hq, if_pos]
          simp [get_job, h, hq]
        · intro j₂ hj₂ hq₂
          have hj : j = j₂ := by
            simp only [get_job, h, Option.some.injEq] at hj₂
            exact hj₂
          subst hj
          refine ⟨?_, ?_, ?_, ?_, ?_⟩
          · simp only [cancel_job, h, hq, if_pos]
            simp [get_job, dictGet_insert_self]
          · intro k hk
            simp only [cancel_job, h, hq, if_pos]
            simp [get_job, dictGet_insert_ne _ _ _ _ hk]
          · simp [cancel_job, h, hq]
          · simp [cancel_job, h, hq]
          · simp [cancel_job, h, hq]
        · intro hf
          simp [cancel_job, h, hq] at hf
      · refine ⟨?_, ?_, ?_⟩
        · simp [cancel_job, get_job, h, hq]
        · intro j₂ hj₂ hq₂
          have hj : j = j₂ := by
            simp only [get_job, h, Option.some.injEq] at hj₂
            exact hj₂
          subst hj
          exact absurd hq₂ hq
        · intro _
          simp [cancel_job, h, hq]

/-- C3 witness: a single-job store with a QUEUED job. -/
theorem C3_cancel_job_queued_only_witness :
    get_job (cancel_job { sm := none, jobs := [("j", { job_id := "j", program_id := "sampler", backend_name := "b@aer", params := 0, options := 0, status := .QUEUED, created_at := 0 })], queue := ["j"], worker := .idle } "j" 5).2 "j"
      = some { job_id := "j", program_id := "sampler", backend_name := "b@aer", params := 0, options := 0, status := .CANCELLED, created_at := 0, completed_at := some 5, error_message := some "Cancelled by user" } :=
  ((C3_cancel_job_queued_only { sm := none, jobs := [("j", { job_id := "j", program_id := "sampler", backend_name := "b@aer", params := 0, options := 0, status := .QUEUED, created_at := 0 })], queue := ["j"], worker := .idle } "j" 5).2.1
    { job_id := "j", program_id := "sampler", backend_name := "b@aer", params := 0, options := 0, status := .QUEUED, created_at := 0 } (by decide) (by decide)).1

/-! ### Claim C7: cancel_session_jobs semantics -/

/-- C7: `cancel_session_jobs` cancels exactly the QUEUED jobs of the given
session (setting `completed_at` and the session-cancellation marker),
returns how many it changed, and leaves every other job record, the queue,
the session store and the worker untouched. -/
theorem C7_cancel_session_jobs_exact (st : ServerState) (sid : String)
    (now : Nat) :
    (cancel_session_jobs st sid now).1 =
      (st.jobs.filter
        (fun p => p.2.session_id = some sid ∧ p.2.status = JobStatus.QUEUED)).length
    ∧ (∀ jid j, get_job st jid = some j → j.session_id = some sid →
        j.status = JobStatus.QUEUED →
        get_job (cancel_session_jobs st sid now).2 jid =
          some { j with status := JobStatus.CANCELLED, completed_at := some now,
                        error_message := some "Cancelled due to session cancellation" })
    ∧ (∀ jid j, get_job st jid = some j →
        ¬(j.session_id = some sid ∧ j.status = JobStatus.QUEUED) →
        get_job (cancel_session_jobs st sid now).2 jid = some j)
    ∧ (∀ jid, get_job st jid = none →
        get_job (cancel_session_jobs st sid now).2 jid = none)
    ∧ (cancel_session_jobs st sid now).2.queue = st.queue
    ∧ (cancel_session_jobs st sid now).2.sm = st.sm
    ∧ (cancel_session_jobs st sid now).2.worker = st.worker := by
  refine ⟨rfl, ?_, ?_, ?_, rfl, rfl, rfl⟩
  · intro jid j hj hsid hq
    have hmap : get_job (cancel_session_jobs st sid now).2 jid =
        (dictGet jid st.jobs).map (cancelSessionTransform sid now) := by
      simp [get_job, cancel_session_jobs, dictGet_map_value]
    rw [hmap]
    simp only [get_job] at hj
    rw [hj]
    simp [cancelSessionTransform, hsid, hq]
  · intro jid j hj hno
    have hmap : get_job (cancel_session_jobs st sid now).2 jid =
        (dictGet jid st.jobs).map (cancelSessionTransform sid now) := by
      simp [get_job, cancel_session_jobs, dictGet_map_value]
    rw [hmap]
    simp only [get_job] at hj
    rw [hj]
    simp [cancelSessionTransform, hno]
  · intro jid hj
    have hmap : get_job (cancel_session_jobs st sid now).2 jid =
        (dictGet jid st.jobs).map (cancelSessionTransform sid now) := by
      simp [get_job, cancel_session_jobs, dictGet_map_value]
    rw [hmap]
    simp only [get_job] at hj
    rw [hj]
    rfl

/-- C7 witness: one QUEUED job in the session, one RUNNING job outside it. -/
theorem C7_cancel_session_jobs_exact_witness :
    get_job (cancel_session_jobs { sm := none, jobs := [("j", { job_id := "j", program_id := "sampler", backend_name := "b@aer", params := 0, options := 0, session_id := some "s", status := .QUEUED, created_at := 0 })], queue := ["j"], worker := .idle } "s" 7).2 "j"
      = some { job_id := "j", program_id := "sampler", backend_name := "b@aer", params := 0, options := 0, session_id := some "s", status := .CANCELLED, created_at := 0, completed_at := some 7, error_message := some "Cancelled due to session cancellation" } :=
  (C7_cancel_session_jobs_exact { sm := none, jobs := [("j", { job_id := "j", program_id := "sampler", backend_name := "b@aer", params := 0, options := 0, session_id := some "s", status := .QUEUED, created_at := 0 })], queue := ["j"], worker := .idle } "s" 7).2.1
    "j" { job_id := "j", program_id := "sampler", backend_name := "b@aer", params := 0, options := 0, session_id := some "s", status := .QUEUED, created_at := 0 } (by decide) (by decide) (by decide)

/-! ### Claim C4: create_job failure atomicity -/

/-- C4: when `create_job` fails it raises synchronously and the whole state
(jobs, queue, sessions, worker) is exactly as before — in particular no job
record remains and nothing was enqueued; when it succeeds, the id is pushed
onto the FIFO queue, and if a session and a session manager were present
the id has been appended to that session's member list, so a queued job is
always attributed. -/
theorem C4_create_job_fail_atomic (mp : MetadataProvider) (st : ServerState)
    (pid bn : String) (prm opt : Nat) (osid : Option String) (jid : String)
    (now : Nat) :
    (∀ e, (create_job mp st pid bn prm opt osid jid now).1 = Except.error e →
        (create_job mp st pid bn prm opt osid jid now).2 = st)
    ∧ ((create_job mp st pid bn prm opt osid jid now).1 = Except.ok jid →
        (create_job mp st pid bn prm opt osid jid now).2.queue = st.queue ++ [jid]
        ∧ get_job (create_job mp st pid bn prm opt osid jid now).2 jid =
            some { job_id := jid, program_id := pid, backend_name := bn,
                   params := prm, options := opt, session_id := osid,
                   status := JobStatus.QUEUED, created_at := now }
        ∧ (∀ sid sm, osid = some sid → st.sm = some sm →
            ∃ sm₂ s, (create_job mp st pid bn prm opt osid jid now).2.sm = some sm₂
              ∧ sm₂.get_session sid = some s ∧ jid ∈ s.job_ids)) := by
  cases hp : mp.parse_backend_name bn with
  | none =>
      constructor
      · intro e he
        simp [create_job, hp]
      · intro hok
        simp [create_job, hp] at hok
  | some parsed =>
      cases osid with
      | none =>
          constructor
          · intro e he
            simp [create_job, hp] at he
          · intro hok
            refine ⟨?_, ?_, ?_⟩
            · simp [create_job, hp]
            · simp [create_job, hp, get_job, dictGet_insert_self]
            · intro sid sm hs hsm
              cases hs
      | some sid =>
          cases hsm : st.sm with
          | none =>
              constructor
              · intro e he
                simp [create_job, hp, hsm] at he
              · intro hok
                refine ⟨?_, ?_, ?_⟩
                · simp [create_job, hp, hsm]
                · simp [create_job, hp, hsm, get_job, dictGet_insert_self]
                · intro sid₂ sm hs hsm₂
                  exact Option.noConfusion hsm₂
          | some sm =>
              cases hg : sm.get_session sid with
              | none =>
                  constructor
                  · intro e he
                    simp [create_job, hp, hsm, hg]
                  · intro hok
                    simp [create_job, hp, hsm, hg] at hok
              | some si =>
                  cases hv : sm.validate_job_backend sid bn with
                  | false =>
                      constructor
                      · intro e he
                        simp [create_job, hp, hsm, hg, hv]
                      · intro hok
                        simp [create_job, hp, hsm, hg, hv] at hok
                  | true =>
                      cases hacc : si.accepting_jobs with
                      | false =>
                          constructor
                          · intro e he
                            simp [create_job, hp, hsm, hg, hv, hacc]
                          · intro hok
                            simp [create_job, hp, hsm, hg, hv, hacc] at hok
                      | true =>
                          have hg₂ : dictGet sid sm.sessions = some si := hg
                          have hadd : sm.add_job_to_session sid jid =
                              (true, ⟨dictInsert sid
                                { si with job_ids := si.job_ids ++ [jid] }
                                sm.sessions⟩) := by
                            simp [SessionManager.add_job_to_session, hg₂, hacc]
                          constructor
                          · intro e he
                            simp [create_job, hp, hsm, hg, hv, hacc, hadd] at he
                          · intro hok
                            refine ⟨?_, ?_, ?_⟩
                            · simp [create_job, hp, hsm, hg, hv, hacc, hadd]
                            · simp [create_job, hp, hsm, hg, hv, hacc, hadd,
                                get_job, dictGet_insert_self]
                            · intro sid₂ sm₂ hs hsm₂
                              cases hs
                              cases hsm₂
                              refine ⟨⟨dictInsert sid
                                  { si with job_ids := si.job_ids ++ [jid] }
                                  sm.sessions⟩,
                                { si with job_ids := si.job_ids ++ [jid] },
                                ?_, ?_, ?_⟩
                              · simp [create_job, hp, hsm, hg, hv, hacc, hadd]
                              · simp [SessionManager.get_session,
                                  dictGet_insert_self]
                              · simp

/-- C4 witness: an invalid backend name fails and leaves the initial state
untouched. -/
theorem C4_create_job_fail_atomic_witness :
    (create_job demoProvider initState "sampler" "bad" 0 0 none "job-1" 0).1
      = Except.error "Invalid backend name: bad"
    ∧ (create_job demoProvider initState "sampler" "bad" 0 0 none "job-1" 0).2
        = initState :=
  ⟨rfl,
   (C4_create_job_fail_atomic demoProvider initState "sampler" "bad" 0 0 none
      "job-1" 0).1 "Invalid backend name: bad" rfl⟩

/-! ### Claim C10: no session manager means no session validation -/

/-- C10: with `session_manager=None`, `create_job` with any (never
validated) session id and a valid backend succeeds: the job is stored with
that session id, enqueued, and no session bookkeeping happens. -/
theorem C10_session_checks_skipped (mp : MetadataProvider) (st : ServerState)
    (pid bn : String) (prm opt : Nat) (sid jid : String) (now : Nat)
    (hsm : st.sm = none) (hbn : (mp.parse_backend_name bn).isSome = true) :
    (create_job mp st pid bn prm opt (some sid) jid now).1 = Except.ok jid
    ∧ get_job (create_job mp st pid bn prm opt (some sid) jid now).2 jid =
        some { job_id := jid, program_id := pid, backend_name := bn,
               params := prm, options := opt, session_id := some sid,
               status := JobStatus.QUEUED, created_at := now }
    ∧ (create_job mp st pid bn prm opt (some sid) jid now).2.queue
        = st.queue ++ [jid]
    ∧ (create_job mp st pid bn prm opt (some sid) jid now).2.sm = none := by
  obtain ⟨parsed, hp⟩ := Option.isSome_iff_exists.mp hbn
  refine ⟨?_, ?_, ?_, ?_⟩
  · simp [create_job, hp, hsm]
  · simp [create_job, hp, hsm, get_job, dictGet_insert_self]
  · simp [create_job, hp, hsm]
  · simp [create_job, hp, hsm]

/-- C10 witness: a store without session manager accepts a job aimed at a
session id that exists nowhere. -/
theorem C10_session_checks_skipped_witness :
    get_job (create_job demoProvider
        { sm := none, jobs := [], queue := [], worker := .idle }
        "sampler" "fake_manila@aer" 0 0 (some "ghost") "job-1" 3).2 "job-1"
      = some { job_id := "job-1", program_id := "sampler",
               backend_name := "fake_manila@aer", params := 0, options := 0,
               session_id := some "ghost", status := JobStatus.QUEUED,
               created_at := 3 } :=
  (C10_session_checks_skipped demoProvider
      { sm := none, jobs := [], queue := [], worker := .idle }
      "sampler" "fake_manila@aer" 0 0 "ghost" "job-1" 3 rfl (by decide)).2.1

/-! ### Claim C9: unknown program kind fails at execution, not admission -/

/-- C9: a job with a program kind other than "sampler"/"estimator" and a
valid backend is admitted (QUEUED, id returned — the kind is not validated
at admission); when the worker picks it up (check, mark RUNNING, run) it
ends FAILED with an error message naming the unknown kind, the exception
having been caught inside the worker (the state transition is total and
the worker goes idle). -/
theorem C9_unknown_program_kind (mp : MetadataProvider) (executors : List String)
    (st : ServerState) (pid bn : String) (prm opt : Nat) (jid m e : String)
    (now₁ now₂ now₃ : Nat) (outcome : ExecOutcome)
    (hp : mp.parse_backend_name bn = some (m, e))
    (hex : executors.contains e = true)
    (hs : pid ≠ "sampler") (hest : pid ≠ "estimator")
    (hq : st.queue = []) :
    (create_job mp st pid bn prm opt none jid now₁).1 = Except.ok jid
    ∧ get_job (create_job mp st pid bn prm opt none jid now₁).2 jid =
        some { job_id := jid, program_id := pid, backend_name := bn,
               params := prm, options := opt, session_id := none,
               status := JobStatus.QUEUED, created_at := now₁ }
    ∧ get_job (workerFinish mp executors
          (workerMark (workerCheck (create_job mp st pid bn prm opt none jid now₁).2) now₂)
          now₃ outcome) jid =
        some { job_id := jid, program_id := pid, backend_name := bn,
               params := prm, options := opt, session_id := none,
               status := JobStatus.FAILED, created_at := now₁,
               started_at := some now₂, completed_at := some now₃,
               error_message := some ("Unknown program_id: " ++ pid) }
    ∧ (workerFinish mp executors
          (workerMark (workerCheck (create_job mp st pid bn prm opt none jid now₁).2) now₂)
          now₃ outcome).worker = WorkerPhase.idle := by
  have h₁ : (create_job mp st pid bn prm opt none jid now₁).2 =
      { st with jobs := dictInsert jid ({ job_id := jid, program_id := pid, backend_name := bn, params := prm, options := opt, session_id := none, status := JobStatus.QUEUED, created_at := now₁ }) st.jobs, queue := st.queue ++ [jid] } := by
    simp [create_job, hp]
  have h₂ : workerCheck (create_job mp st pid bn prm opt none jid now₁).2 =
      { st with jobs := dictInsert jid ({ job_id := jid, program_id := pid, backend_name := bn, params := prm, options := opt, session_id := none, status := JobStatus.QUEUED, created_at := now₁ }) st.jobs, queue := [], worker := WorkerPhase.marking jid } := by
    rw [h₁]
    simp [workerCheck, hq, dictGet_insert_self]
  have h₃ : workerMark (workerCheck (create_job mp st pid bn prm opt none jid now₁).2) now₂ =
      { st with jobs := dictInsert jid ({ job_id := jid, program_id := pid, backend_name := bn, params := prm, options := opt, session_id := none, status := JobStatus.RUNNING, created_at := now₁, started_at := some now₂ }) (dictInsert jid ({ job_id := jid, program_id := pid, backend_name := bn, params := prm, options := opt, session_id := none, status := JobStatus.QUEUED, created_at := now₁ }) st.jobs), queue := [], worker := WorkerPhase.running jid } := by
    rw [h₂]
    simp [workerMark, dictGet_insert_self]
  refine ⟨?_, ?_, ?_, ?_⟩
  · simp [create_job, hp]
  · rw [h₁]
    simp [get_job, dictGet_insert_self]
  · rw [h₃]
    have hmem : e ∈ executors := by simpa using hex
    simp [workerFinish, get_job, dictGet_insert_self, execute_result, hp, hmem,
      hs, hest]
  · rw [h₃]
    have hmem : e ∈ executors := by simpa using hex
    simp [workerFinish, dictGet_insert_self, execute_result, hp, hmem, hs, hest]

/-- C9 witness: program kind "bogus" on a fresh server is admitted and then
fails with the unknown-kind message. -/
theorem C9_unknown_program_kind_witness :
    get_job (workerFinish demoProvider ["aer"]
        (workerMark (workerCheck (create_job demoProvider initState "bogus"
            "fake_manila@aer" 0 0 none "job-1" 1).2) 2) 3 (ExecOutcome.ok 0))
        "job-1"
      = some { job_id := "job-1", program_id := "bogus",
               backend_name := "fake_manila@aer", params := 0, options := 0,
               session_id := none, status := JobStatus.FAILED, created_at := 1,
               started_at := some 2, completed_at := some 3,
               error_message := some ("Unknown program_id: " ++ "bogus") } :=
  (C9_unknown_program_kind demoProvider ["aer"] initState "bogus"
      "fake_manila@aer" 0 0 "job-1" "fake_manila" "aer" 1 2 3
      (ExecOutcome.ok 0) (by decide) (by decide) (by decide) (by decide)
      rfl).2.2.1

/-! ### Claim C2: getters return live references, not snapshots -/

/-- C2 counterexample: `get_job` hands out the stored reference; after a
later `cancel_job` the value reachable through that same reference has
changed, so the record returned earlier was not an independent
point-in-time copy. -/
theorem C2_counterexample :
    snapshotStore.get_job "j" = some 0
    ∧ snapshotStore.deref 0 = some snapshotJob
    ∧ (snapshotStore.cancel_job "j" 1).2.deref 0 ≠ some snapshotJob := by
  refine ⟨rfl, rfl, ?_⟩
  intro h
  simp [snapshotStore, snapshotJob, JobHeapStore.cancel_job,
    JobHeapStore.deref, dictGet] at h

/-- C2 amended: `list_jobs` copies the id→record mapping, but both getters
return the live record references: whenever `get_job` has returned the
reference of a QUEUED job, a later `cancel_job` mutates the object in
place, and the change is visible through the previously returned
reference. -/
theorem C2_getters_alias_store (st : JobHeapStore) (jid : String) (addr : Nat)
    (j : JobInfo) (now : Nat) (hget : st.get_job jid = some addr)
    (hderef : st.deref addr = some j) (hq : j.status = JobStatus.QUEUED) :
    (st.cancel_job jid now).1 = true
    ∧ (st.cancel_job jid now).2.deref addr =
        some { j with status := JobStatus.CANCELLED, completed_at := some now,
                      error_message := some "Cancelled by user" }
    ∧ st.list_jobs = st.jobs := by
  have hget₂ : dictGet jid st.jobs = some addr := hget
  have hderef₂ : st.heap.get? addr = some j := hderef
  have hlt : addr < st.heap.length := by
    rcases List.get?_eq_some.mp hderef₂ with ⟨hl, _⟩
    exact hl
  have hderef₃ : st.heap[addr]? = some j := by
    simpa [List.get?_eq_getElem?] using hderef₂
  refine ⟨?_, ?_, rfl⟩
  · simp [JobHeapStore.cancel_job, hget₂, hderef₂, hderef₃, hq]
  · simp only [JobHeapStore.cancel_job, hget₂, hderef₂, hderef₃, hq, if_pos]
    simp [JobHeapStore.deref, List.get?_eq_getElem?, List.getElem?_set_self,
      hlt]

/-- C2 witness: the amended behaviour on the one-job store. -/
theorem C2_getters_alias_store_witness :
    (snapshotStore.cancel_job "j" 1).2.deref 0 =
      some { snapshotJob with status := JobStatus.CANCELLED,
                              completed_at := some 1,
                              error_message := some "Cancelled by user" } :=
  (C2_getters_alias_store snapshotStore "j" 0 snapshotJob 1 rfl rfl rfl).2.1

/-! ### Claim C5: the job status machine and the cancel/execute race -/

/-- C5 (the code violates the claimed state machine): with one QUEUED job,
the worker passes the CANCELLED check of `_execute_job` and releases the
lock; `cancel_job` then succeeds (returns true) and records the terminal
status CANCELLED with `completed_at` and the "Cancelled by user" message;
the worker's RUNNING mark — taken under a fresh lock without re-checking —
then moves the job CANCELLED→RUNNING, a transition outside the claimed
state machine and a field mutation after a terminal status was recorded,
and the job finally ends COMPLETED with a result payload while
`error_message` still reads "Cancelled by user". -/
theorem C5_cancelled_job_runs_demo :
    (get_job raceAdmitted "job-1").map JobInfo.status = some JobStatus.QUEUED
    ∧ raceCancelled.1 = true
    ∧ (get_job raceCancelled.2 "job-1").map JobInfo.status
        = some JobStatus.CANCELLED
    ∧ (get_job raceCancelled.2 "job-1").map JobInfo.completed_at
        = some (some 1)
    ∧ (get_job raceMarked "job-1").map JobInfo.status = some JobStatus.RUNNING
    ∧ ¬ jobStepOk (get_job raceCancelled.2 "job-1") (get_job raceMarked "job-1")
    ∧ (get_job raceDone "job-1").map JobInfo.status = some JobStatus.COMPLETED
    ∧ (get_job raceDone "job-1").map JobInfo.error_message
        = some (some "Cancelled by user") := by
  decide

end RuntimeServer

